import Mathlib

/-!
Verification development for the insta-relief alert ingestion and
notification pipeline (functions/index.js), shallowly embedded in Lean.

JavaScript conventions modelled explicitly:
  * possibly-missing fields are `Option` values;
  * JS truthiness for strings (`undefined` and `""` are falsy) and for
    numbers (`undefined` and `0` are falsy) is modelled by `jsStrFalsy`
    and `jsNumFalsy`;
  * timestamps are milliseconds since the epoch, as `Int` (so that
    `Date.now() - lastSent` may be negative);
  * external effects (Firestore transaction commit, SMTP send) are
    modelled by boolean oracles saying whether the effect succeeds.
-/

namespace InstaRelief

/-- JS truthiness test for an optional string: `undefined` and `""` are falsy. -/
def jsStrFalsy (s : Option String) : Bool :=
  match s with
  | none => true
  | some v => v == ""

/-- JS truthiness test for an optional number: `undefined` and `0` are falsy. -/
def jsNumFalsy (n : Option Int) : Bool :=
  match n with
  | none => true
  | some v => v == 0

/-- JS `a || b` for an optional string `a` and a default `b`. -/
def jsOr (a : Option String) (b : String) : String :=
  match a with
  | none => b
  | some s => if s == "" then b else s

/-- JS `String.prototype.toLowerCase`, modelled characterwise on the
underlying character list (the strings involved are ASCII). -/
def strToLower (s : String) : String :=
  ⟨s.data.map Char.toLower⟩

/-- JS `String.prototype.includes`: `pat` occurs as a contiguous substring
of `s` (on the underlying character lists). -/
def listIncludes (s pat : List Char) : Bool :=
  (List.range (s.length + 1)).any (fun i => (s.drop i).take pat.length == pat)

/-- JS `s.includes(pat)` on strings. -/
def strIncludes (s pat : String) : Bool :=
  listIncludes s.toList pat.toList

/-- The `properties` object of one feed alert (NOAA GeoJSON feature). -/
structure AlertProps where
  id : String
  event : Option String
  severity : Option String
  headline : Option String
  description : Option String
  areaDesc : Option String
deriving Repr, DecidableEq

/-- One feed alert; the handler code only reads `alert.properties`. -/
structure Alert where
  properties : AlertProps
deriving Repr, DecidableEq

/-- A user document in the `users` collection. -/
structure User where
  email : String
  name : Option String
  zip : String
  status : String
  balance : Option Int
  lastAlertTimestamp : Option Int
  lastAlertId : Option String
  lastPayout : Option Int
deriving Repr, DecidableEq

/-- `shouldSendPayout(severity)`: lowercase the (possibly missing)
severity and compare with the two qualifying labels. -/
def shouldSendPayout (severity : Option String) : Bool :=
  let sev := strToLower (severity.getD "")
  sev == "extreme" || sev == "severe"

/-- `mapAreaToZips(areaDesc)`: empty/absent input yields `[]`; otherwise
keep every table entry whose key occurs case-insensitively in the area
text, and return the entry values.  The `zip_to_county.json` table is a
configuration artifact and is passed in as an association list. -/
def mapAreaToZips (table : List (String × String)) (areaDesc : Option String) : List String :=
  if jsStrFalsy areaDesc then []
  else
    let area := strToLower (areaDesc.getD "")
    (table.filter (fun kv => strIncludes area (strToLower kv.1))).map (fun kv => kv.2)

/-- Case-insensitive equality of strings, as a specification-side notion. -/
def caseInsensitiveEq (a b : String) : Prop :=
  strToLower a = strToLower b

/-- `30 * 60 * 1000` milliseconds, the rate-limit window. -/
def thirtyMinutes : Int := 30 * 60 * 1000

/-- The rate-limit test of `handleUserAlert`:
`lastSent = user.lastAlertTimestamp || 0`, and the user is skipped when
`Date.now() - lastSent < thirtyMinutes`. -/
def rateLimited (now : Int) (lastAlertTimestamp : Option Int) : Bool :=
  let lastSent := lastAlertTimestamp.getD 0
  let timeSinceLastAlert := now - lastSent
  timeSinceLastAlert < thirtyMinutes

/-- The `canReceiveAlert` field computed by the `checkUsers` endpoint:
`!data.lastAlertTimestamp || (Date.now() - data.lastAlertTimestamp > 30*60*1000)`. -/
def canReceiveAlert (now : Int) (lastAlertTimestamp : Option Int) : Bool :=
  jsNumFalsy lastAlertTimestamp || now - lastAlertTimestamp.getD 0 > thirtyMinutes

deriving instance DecidableEq for Except

/-- The outcome of `handleUserAlert` for one user: the user document as
left in Firestore, whether the notification email went out, and the
settled promise (`.ok` fulfilled, `.error` rejected). -/
structure UserOutcome where
  user : User
  emailSent : Bool
  result : Except String Unit
deriving Repr, DecidableEq

/-- `handleUserAlert(doc, alert, pay)` for one user document.
`txOk` says whether the Firestore payout transaction commits, `mailOk`
whether the SMTP2GO send succeeds.  Faithful to the source order:
missing-API-key throw, rate-limit skip, conditional payout transaction,
unconditional last-alert update, email send. -/
def handleUserAlert (smtpApiKey : Option String) (now : Int) (txOk mailOk : Bool)
    (u : User) (alert : AlertProps) (pay : Bool) : UserOutcome :=
  if jsStrFalsy smtpApiKey then
    ⟨u, false, .error "SMTP API key missing! Set SMTP2GO_API_KEY in .env file"⟩
  else if rateLimited now u.lastAlertTimestamp then
    ⟨u, false, .ok ()⟩
  else if pay && !txOk then
    ⟨u, false, .error "transaction failed"⟩
  else
    let u1 := if pay then
        { u with balance := some (u.balance.getD 0 + 100),
                 status := "PAID",
                 lastPayout := some now }
      else u
    let u2 := { u1 with lastAlertTimestamp := some now,
                        lastAlertId := some alert.id }
    if mailOk then ⟨u2, true, .ok ()⟩
    else ⟨u2, false, .error "SMTP2GO error"⟩

/-- The `users` query filter of `handleZipAlert` and `checkUsers`:
`.where("zip","==",zip).where("status","==","ACTIVE")`. -/
def userMatches (zip : String) (u : User) : Bool :=
  u.zip == zip && u.status == "ACTIVE"

/-- Worker for `handleZipAlert`: walk the whole `users` collection,
process each matching document with its own oracles (indexed by its
position among the matched documents, i.e. its index in
`users.docs`), leave the rest untouched.  Returns the updated
collection and the list of settled per-user outcomes. -/
def handleZipAlertGo (smtpApiKey : Option String) (now : Int) (txOk mailOk : Nat → Bool)
    (zip : String) (alert : AlertProps) (pay : Bool) :
    List User → Nat → List User × List UserOutcome
  | [], _ => ([], [])
  | u :: rest, i =>
    if userMatches zip u then
      let r := handleUserAlert smtpApiKey now (txOk i) (mailOk i) u alert pay
      let k := handleZipAlertGo smtpApiKey now txOk mailOk zip alert pay rest (i + 1)
      (r.user :: k.1, r :: k.2)
    else
      let k := handleZipAlertGo smtpApiKey now txOk mailOk zip alert pay rest i
      (u :: k.1, k.2)

/-- `handleZipAlert(zip, alert, pay)`: query the active users of the
postal code and `Promise.allSettled` over `users.docs`.  The function
always completes with one settled outcome per matched user; there is no
overall-failure channel. -/
def handleZipAlert (smtpApiKey : Option String) (now : Int) (txOk mailOk : Nat → Bool)
    (users : List User) (zip : String) (alert : AlertProps) (pay : Bool) :
    List User × List UserOutcome :=
  handleZipAlertGo smtpApiKey now txOk mailOk zip alert pay users 0

/-- A document of the `processedAlerts` collection (dedup marker),
keyed by alert id; records processing time, severity and area. -/
structure Marker where
  processedAt : Int
  severity : Option String
  areaDesc : Option String
deriving Repr, DecidableEq

/-- The Firestore state touched by the pipeline: the `processedAlerts`
collection (association list keyed by alert id) and the `users`
collection. -/
structure Store where
  processedAlerts : List (String × Marker)
  users : List User
deriving Repr, DecidableEq

/-- The dedup check of the ingestion loop:
`db.collection("processedAlerts").doc(alertId).get(); processed.exists`. -/
def hasMarker (st : Store) (alertId : String) : Bool :=
  st.processedAlerts.any (fun kv => kv.1 == alertId)

/-- One iteration of the ingestion loop body for one fetched alert:
skip when a marker exists, otherwise create the marker first, then map
the area to postal codes and dispatch to each sequentially; the second
component is this alert's contribution to `processedCount` (0 or 1). -/
def processAlert (table : List (String × String)) (smtpApiKey : Option String)
    (now : Int) (txOk mailOk : Nat → Bool) (st : Store) (alert : Alert) :
    Store × Nat :=
  let aid := alert.properties.id
  if hasMarker st aid then (st, 0)
  else
    let marker : Marker := ⟨now, alert.properties.severity, alert.properties.areaDesc⟩
    let st1 : Store := { st with processedAlerts := st.processedAlerts ++ [(aid, marker)] }
    let zips := mapAreaToZips table alert.properties.areaDesc
    let users1 := zips.foldl
      (fun us zip =>
        let pay := shouldSendPayout alert.properties.severity
        (handleZipAlert smtpApiKey now txOk mailOk us zip alert.properties pay).1)
      st1.users
    ({ st1 with users := users1 }, 1)

/-- The `for (const alert of data.features)` loop of
`fetchNoaaAlertsHandler`, accumulating `processedCount`. -/
def runAlerts (table : List (String × String)) (smtpApiKey : Option String)
    (now : Int) (txOk mailOk : Nat → Bool) : Store → List Alert → Store × Nat
  | st, [] => (st, 0)
  | st, a :: rest =>
    let r := processAlert table smtpApiKey now txOk mailOk st a
    let k := runAlerts table smtpApiKey now txOk mailOk r.1 rest
    (k.1, r.2 + k.2)

/-- `fetchNoaaAlertsHandler()`: a non-ok feed response throws before
touching the store; a missing or empty `features` array returns
`alertsProcessed: 0`; otherwise the loop runs over the fetched alerts.
The result pairs the settled promise (`.ok processedCount` or the
thrown error) with the Firestore state after the call. -/
def fetchNoaaAlertsHandler (table : List (String × String)) (smtpApiKey : Option String)
    (now : Int) (txOk mailOk : Nat → Bool) (respOk : Bool)
    (features : Option (List Alert)) (st : Store) :
    Except String Nat × Store :=
  if !respOk then (.error "NOAA API returned an error", st)
  else
    match features with
    | none => (.ok 0, st)
    | some fs =>
      if fs.isEmpty then (.ok 0, st)
      else
        let r := runAlerts table smtpApiKey now txOk mailOk st fs
        (.ok r.2, r.1)

/-- The JSON response shape of the HTTP endpoints; fields not set by an
endpoint stay `none`. -/
structure HttpResponse where
  status : Nat
  success : Bool
  error : Option String := none
  alertsProcessed : Option Nat := none
  payoutSent : Option Bool := none
  userCount : Option Nat := none
deriving Repr, DecidableEq

/-- The `fetchNoaaAlerts` HTTP endpoint: try/catch around
`fetchNoaaAlertsHandler`, `200 {success:true,...}` on success and
`500 {success:false, error}` on a thrown error. -/
def fetchNoaaAlertsEndpoint (table : List (String × String)) (smtpApiKey : Option String)
    (now : Int) (txOk mailOk : Nat → Bool) (respOk : Bool)
    (features : Option (List Alert)) (st : Store) : HttpResponse × Store :=
  let r := fetchNoaaAlertsHandler table smtpApiKey now txOk mailOk respOk features st
  match r.1 with
  | .ok n => ({ status := 200, success := true, alertsProcessed := some n }, r.2)
  | .error e => ({ status := 500, success := false, error := some e }, r.2)

/-- The `simulateDisaster` HTTP endpoint: default the three inputs,
build a fake alert, dispatch, and answer `200 {success:true,
payoutSent}`; any error thrown inside the try block (modelled by
`opErr`) is answered with `500 {success:false, error}`. -/
def simulateDisasterEndpoint (table : List (String × String)) (smtpApiKey : Option String)
    (now : Int) (txOk mailOk : Nat → Bool) (users : List User)
    (zipQ severityQ eventQ : Option String) (opErr : Option String) :
    HttpResponse × List User :=
  match opErr with
  | some e => ({ status := 500, success := false, error := some e }, users)
  | none =>
    let zip := jsOr zipQ "70401"
    let severity := jsOr severityQ "Extreme"
    let event := jsOr eventQ "Hurricane"
    let fakeAlert : AlertProps :=
      ⟨"demo-" ++ toString now, some event, some severity,
       some (event ++ " Warning - Emergency Alert System Activated"),
       some ("This is a SIMULATED " ++ event ++ " alert for demonstration purposes."),
       some (jsOr (table.lookup zip) ("Area for ZIP " ++ zip))⟩
    let pay := shouldSendPayout (some severity)
    let r := handleZipAlert smtpApiKey now txOk mailOk users zip fakeAlert pay
    ({ status := 200, success := true, payoutSent := some pay }, r.1)

/-- One row of the `checkUsers` response: `lastAlert` is `none` when the
code would print `"Never"`. -/
structure NotifiableUser where
  email : String
  name : Option String
  balance : Int
  lastAlert : Option Int
  canReceiveAlert : Bool
deriving Repr, DecidableEq

/-- The `checkUsers` HTTP endpoint: list the active users of a postal
code together with their `canReceiveAlert` flag; a thrown error
(modelled by `opErr`) is answered with `500 {success:false, error}`. -/
def checkUsersEndpoint (now : Int) (users : List User) (zipQ : Option String)
    (opErr : Option String) : HttpResponse × List NotifiableUser :=
  match opErr with
  | some e => ({ status := 500, success := false, error := some e }, [])
  | none =>
    let zip := jsOr zipQ "70401"
    let matched := users.filter (userMatches zip)
    let userList := matched.map (fun u =>
      NotifiableUser.mk u.email u.name (u.balance.getD 0)
        (if jsNumFalsy u.lastAlertTimestamp then none else u.lastAlertTimestamp)
        (canReceiveAlert now u.lastAlertTimestamp))
    ({ status := 200, success := true, userCount := some userList.length }, userList)

/-- An `HttpsError` thrown by a callable function. -/
structure CallError where
  code : String
  message : String
deriving Repr, DecidableEq

/-- The `disaster` callable: a falsy `zip` throws
`HttpsError("invalid-argument", "ZIP code is required")` before any
side effect; otherwise a fake alert is built and dispatched.  Returns
the settled result together with the `users` collection after the call
and the per-user dispatch outcomes (empty when nothing was dispatched). -/
def disasterCallable (table : List (String × String)) (smtpApiKey : Option String)
    (now : Int) (txOk mailOk : Nat → Bool) (users : List User)
    (zip severity event areaDesc headline description : Option String) :
    Except CallError String × List User × List UserOutcome :=
  if jsStrFalsy zip then
    (.error ⟨"invalid-argument", "ZIP code is required"⟩, users, [])
  else
    let z := zip.getD ""
    let sev := severity.getD "Extreme"
    let fakeAlert : AlertProps :=
      ⟨"sim-" ++ toString now, some (jsOr event "Simulated Disaster"), some sev,
       some (jsOr headline ("Test Alert for ZIP " ++ z)),
       some (jsOr description "Simulated alert."),
       some (jsOr areaDesc (jsOr (table.lookup z) "Unknown"))⟩
    let pay := shouldSendPayout (some sev)
    let r := handleZipAlert smtpApiKey now txOk mailOk users z fakeAlert pay
    (.ok ("Simulated alert processed for ZIP " ++ z), r.1, r.2)

/-- The `sendCatastropheEmail` HTTP endpoint: missing required fields
are answered `400` before the mail credential is even read; a missing
credential or a failed send is a thrown error answered `500`; the
boolean records whether an email actually went out. -/
def sendCatastropheEmailEndpoint (smtpApiKey : Option String) (mailOk : Bool)
    (userEmail userName catastropheType : Option String) (amount : Option Int) :
    HttpResponse × Bool :=
  if jsStrFalsy userEmail || jsStrFalsy userName || jsStrFalsy catastropheType
      || jsNumFalsy amount then
    ({ status := 400, success := false,
       error := some "Missing required fields: userEmail, userName, catastropheType, amount" },
     false)
  else if jsStrFalsy smtpApiKey then
    ({ status := 500, success := false, error := some "SMTP API key missing" }, false)
  else if mailOk then
    ({ status := 200, success := true }, true)
  else
    ({ status := 500, success := false, error := some "SMTP2GO error" }, false)

/-! Concrete sample data used by witness theorems. -/

/-- A sample feed alert. -/
def sampleAlert : AlertProps :=
  ⟨"alert-1", some "Hurricane", some "Extreme", some "Hurricane Warning",
   some "A hurricane is approaching.", some "Tangipahoa"⟩

/-- A sample active user who was alerted recently (timestamp 500 ms). -/
def sampleUser : User :=
  ⟨"ada@example.com", some "Ada", "70401", "ACTIVE", some 40, some 500, none, none⟩

/-- A sample active user with no prior alert. -/
def sampleUserFresh : User :=
  ⟨"bob@example.com", none, "70401", "ACTIVE", none, none, none, none⟩

/-- Claim C6: the payout policy returns `true` exactly when the
severity, compared case-insensitively, equals "extreme" or "severe";
every other value, including a missing severity, yields `false`.  The
function is a total Lean function, so it has no failure mode. -/
theorem shouldSendPayout_spec (severity : Option String) :
    shouldSendPayout severity = true ↔
      ∃ s, severity = some s ∧
        (caseInsensitiveEq s "extreme" ∨ caseInsensitiveEq s "severe") := by
  have h1 : strToLower "extreme" = "extreme" := by decide
  have h2 : strToLower "severe" = "severe" := by decide
  cases severity with
  | none =>
    constructor
    · intro h
      exact absurd h (by decide)
    · rintro ⟨s, hs, _⟩
      cases hs
  | some s =>
    simp only [shouldSendPayout, Option.getD_some, Bool.or_eq_true, beq_iff_eq,
      caseInsensitiveEq, h1, h2, Option.some.injEq]
    constructor
    · intro h
      exact ⟨s, rfl, h⟩
    · rintro ⟨t, rfl, h⟩
      exact h

/-- Claim C7: the postal-code mapper returns `[]` on an absent or empty
area text, and otherwise a value is returned exactly when some table
entry carries it and the entry's key occurs case-insensitively as a
substring of the area text. -/
theorem mapAreaToZips_spec (table : List (String × String)) (a z : String)
    (ha : a ≠ "") :
    mapAreaToZips table none = [] ∧ mapAreaToZips table (some "") = [] ∧
    (z ∈ mapAreaToZips table (some a) ↔
      ∃ k, (k, z) ∈ table ∧ strIncludes (strToLower a) (strToLower k) = true) := by
  refine ⟨rfl, rfl, ?_⟩
  have hfalsy : jsStrFalsy (some a) = false := by
    simpa [jsStrFalsy] using ha
  simp only [mapAreaToZips, hfalsy, Bool.false_eq_true, if_false, Option.getD_some,
    List.mem_map, List.mem_filter]
  constructor
  · rintro ⟨kv, ⟨hmem, hinc⟩, hz⟩
    exact ⟨kv.1, by simpa [← hz] using hmem, hinc⟩
  · rintro ⟨k, hmem, hinc⟩
    exact ⟨(k, z), ⟨hmem, hinc⟩, rfl⟩

/-- Witness for C7 at a concrete input: "Tangipahoa" maps area text
"Tangipahoa Parish, LA" to postal code "70401". -/
theorem mapAreaToZips_spec_witness :
    "70401" ∈ mapAreaToZips [("Tangipahoa", "70401")] (some "Tangipahoa Parish, LA") :=
  ((mapAreaToZips_spec [("Tangipahoa", "70401")] "Tangipahoa Parish, LA" "70401"
      (by decide)).2.2).mpr ⟨"Tangipahoa", by decide, by decide⟩

/-- Claim C2: with the mail credential configured, a user whose elapsed
time since `lastAlertTimestamp` is under thirty minutes is skipped with
no error, no mutation and no email; and a user with no prior timestamp
passes the rate-limit test (given that the clock reads at least thirty
minutes past the epoch, as any real `Date.now()` does). -/
theorem rate_limit_skip (key : String) (now : Int) (txOk mailOk : Bool)
    (u : User) (alert : AlertProps) (pay : Bool) (hkey : key ≠ "") :
    (rateLimited now u.lastAlertTimestamp = true →
      handleUserAlert (some key) now txOk mailOk u alert pay = ⟨u, false, .ok ()⟩) ∧
    (u.lastAlertTimestamp = none → thirtyMinutes ≤ now →
      rateLimited now u.lastAlertTimestamp = false) := by
  constructor
  · intro hrl
    have hk : jsStrFalsy (some key) = false := by
      simpa [jsStrFalsy] using hkey
    simp [handleUserAlert, hk, hrl]
  · intro hnone hle
    simp only [hnone, rateLimited, Option.getD_none, thirtyMinutes] at *
    simp only [decide_eq_false_iff_not, not_lt]
    omega

/-- Witness for C2: a user alerted 500 ms ago is skipped untouched at
time 1000; a user with no prior timestamp is not rate limited at time
1800000. -/
theorem rate_limit_skip_witness :
    handleUserAlert (some "k") 1000 true true sampleUser sampleAlert true
        = ⟨sampleUser, false, .ok ()⟩ ∧
    rateLimited 1800000 sampleUserFresh.lastAlertTimestamp = false :=
  ⟨(rate_limit_skip "k" 1000 true true sampleUser sampleAlert true (by decide)).1
      (by decide),
   (rate_limit_skip "k" 1800000 true true sampleUserFresh sampleAlert true
      (by decide)).2 (by decide) (by decide)⟩

/-- Claim C3: for an eligible user (credential configured, not rate
limited, transaction committing): when `pay` is true the balance rises
by exactly 100, the status becomes PAID and a payout timestamp is
recorded; and regardless of `pay` (and even if the email send then
fails), `lastAlertTimestamp` is set to now and `lastAlertId` to the
alert's id. -/
theorem payout_and_last_alert_update (key : String) (now : Int) (mailOk : Bool)
    (u : User) (alert : AlertProps) (pay : Bool)
    (hkey : key ≠ "") (helig : rateLimited now u.lastAlertTimestamp = false) :
    (pay = true →
      (handleUserAlert (some key) now true mailOk u alert pay).user.balance
          = some (u.balance.getD 0 + 100) ∧
      (handleUserAlert (some key) now true mailOk u alert pay).user.status = "PAID" ∧
      (handleUserAlert (some key) now true mailOk u alert pay).user.lastPayout
          = some now) ∧
    (handleUserAlert (some key) now true mailOk u alert pay).user.lastAlertTimestamp
        = some now ∧
    (handleUserAlert (some key) now true mailOk u alert pay).user.lastAlertId
        = some alert.id := by
  have hk : jsStrFalsy (some key) = false := by
    simpa [jsStrFalsy] using hkey
  cases pay <;> cases mailOk <;>
    simp [handleUserAlert, hk, helig]

/-- Witness for C3: an eligible user at time 1800000 with balance 40 is
paid to balance 140, PAID status, and stamped with the alert id. -/
theorem payout_and_last_alert_update_witness :
    (handleUserAlert (some "k") 3600000 true true sampleUser sampleAlert true).user.balance
        = some 140 ∧
    (handleUserAlert (some "k") 3600000 true true sampleUser sampleAlert true).user.status
        = "PAID" ∧
    (handleUserAlert (some "k") 3600000 true true sampleUser sampleAlert true).user.lastAlertTimestamp
        = some 3600000 ∧
    (handleUserAlert (some "k") 3600000 true true sampleUser sampleAlert true).user.lastAlertId
        = some "alert-1" := by
  have h := payout_and_last_alert_update "k" 3600000 true sampleUser sampleAlert true
    (by decide) (by decide)
  exact ⟨(h.1 rfl).1, (h.1 rfl).2.1, h.2.1, h.2.2⟩

/-- Claim C10: the dispatch rate-limit test and the `checkUsers`
`canReceiveAlert` flag use different boundaries: at an elapsed time of
exactly thirty minutes the dispatcher notifies (not rate limited) while
`checkUsers` reports the user as not notifiable; at every other elapsed
time, and for users with no prior timestamp (with the clock at least
thirty minutes past the epoch), the two agree. -/
theorem rate_limit_boundary_mismatch (now v : Int) :
    (v ≠ 0 → now - v = thirtyMinutes →
      rateLimited now (some v) = false ∧ canReceiveAlert now (some v) = false) ∧
    (v ≠ 0 → now - v ≠ thirtyMinutes →
      (rateLimited now (some v) = false ↔ canReceiveAlert now (some v) = true)) ∧
    (thirtyMinutes ≤ now →
      rateLimited now none = false ∧ canReceiveAlert now none = true) := by
  refine ⟨?_, ?_, ?_⟩
  · intro hv heq
    have hbeq : ((v : Int) == 0) = false := by simpa using hv
    constructor
    · simp only [rateLimited, Option.getD_some, decide_eq_false_iff_not, not_lt]
      omega
    · simp only [canReceiveAlert, jsNumFalsy, Option.getD_some, Bool.or_eq_false_iff]
      refine ⟨hbeq, ?_⟩
      simp only [decide_eq_false_iff_not, not_lt, gt_iff_lt]
      omega
  · intro hv hne
    simp only [rateLimited, canReceiveAlert, jsNumFalsy, Option.getD_some, Bool.or_eq_true,
      beq_iff_eq, decide_eq_true_eq, decide_eq_false_iff_not, not_lt, gt_iff_lt]
    constructor
    · intro h
      exact Or.inr (by omega)
    · rintro (h | h)
      · exact absurd h hv
      · omega
  · intro hle
    constructor
    · simp only [rateLimited, Option.getD_none, decide_eq_false_iff_not, not_lt]
      omega
    · simp only [canReceiveAlert, jsNumFalsy, Bool.true_or]

/-- Witness for C10: at time 3600000, a last alert at 1800000 (exactly
thirty minutes ago) is notified by dispatch but reported not notifiable
by `checkUsers`; a last alert at 1 agrees between the two; and a user
with no prior timestamp agrees at time 1800000. -/
theorem rate_limit_boundary_mismatch_witness :
    (rateLimited 3600000 (some 1800000) = false ∧
      canReceiveAlert 3600000 (some 1800000) = false) ∧
    (rateLimited 3600000 (some 1) = false ↔ canReceiveAlert 3600000 (some 1) = true) ∧
    (rateLimited 1800000 none = false ∧ canReceiveAlert 1800000 none = true) :=
  ⟨(rate_limit_boundary_mismatch 3600000 1800000).1 (by decide) (by decide),
   (rate_limit_boundary_mismatch 3600000 1).2.1 (by decide) (by decide),
   (rate_limit_boundary_mismatch 1800000 0).2.2 (by decide)⟩

/-- Helper for C4: the outcomes collected by `handleZipAlertGo` are the
map of the independent per-user step over the matched users (paired
with their index among the matched documents). -/
theorem handleZipAlertGo_outcomes (smtpApiKey : Option String) (now : Int)
    (txOk mailOk : Nat → Bool) (zip : String) (alert : AlertProps) (pay : Bool)
    (l : List User) :
    ∀ i, (handleZipAlertGo smtpApiKey now txOk mailOk zip alert pay l i).2 =
      ((l.filter (userMatches zip)).enumFrom i).map
        (fun p => handleUserAlert smtpApiKey now (txOk p.1) (mailOk p.1) p.2 alert pay) := by
  induction l with
  | nil => intro i; rfl
  | cons u rest ih =>
    intro i
    by_cases h : userMatches zip u <;>
      simp [handleZipAlertGo, h, List.filter_cons, ih, List.enumFrom]

/-- Claim C4: dispatch over a postal code always completes normally
with one settled outcome per matched user, each outcome being the
independent per-user computation (so one user's mail, transaction or
configuration failure neither aborts nor alters the others); and a
per-user failure is never propagated as an overall ingestion failure:
with a successful feed fetch, ingestion always settles with `.ok`,
whatever the per-user oracles do. -/
theorem dispatch_isolates_user_failures (smtpApiKey : Option String) (now : Int)
    (txOk mailOk : Nat → Bool) (users : List User) (zip : String)
    (alert : AlertProps) (pay : Bool) (table : List (String × String))
    (features : Option (List Alert)) (st : Store) :
    (handleZipAlert smtpApiKey now txOk mailOk users zip alert pay).2 =
      ((users.filter (userMatches zip)).enum.map
        (fun p => handleUserAlert smtpApiKey now (txOk p.1) (mailOk p.1) p.2 alert pay)) ∧
    (handleZipAlert smtpApiKey now txOk mailOk users zip alert pay).2.length =
      (users.filter (userMatches zip)).length ∧
    (∃ n, (fetchNoaaAlertsHandler table smtpApiKey now txOk mailOk true features st).1
        = .ok n) := by
  have h := handleZipAlertGo_outcomes smtpApiKey now txOk mailOk zip alert pay users 0
  refine ⟨h, ?_, ?_⟩
  · rw [handleZipAlert, h]
    simp [List.enumFrom_length]
  · cases features with
    | none => exact ⟨0, rfl⟩
    | some fs =>
      by_cases hfs : fs.isEmpty <;>
        simp [fetchNoaaAlertsHandler, hfs]

/-- Claim C5: a non-success feed response fails the whole ingestion
call with the error surfaced and the store untouched; a missing or
empty alert set returns zero processed with no error and the store
untouched. -/
theorem ingest_feed_failure_and_empty (table : List (String × String))
    (smtpApiKey : Option String) (now : Int) (txOk mailOk : Nat → Bool)
    (features : Option (List Alert)) (st : Store) :
    fetchNoaaAlertsHandler table smtpApiKey now txOk mailOk false features st
        = (.error "NOAA API returned an error", st) ∧
    fetchNoaaAlertsHandler table smtpApiKey now txOk mailOk true none st
        = (.ok 0, st) ∧
    fetchNoaaAlertsHandler table smtpApiKey now txOk mailOk true (some []) st
        = (.ok 0, st) :=
  ⟨rfl, rfl, rfl⟩

/-- Helper for C1: a marker present in the store survives processing of
any further alert (the `processedAlerts` collection only ever grows). -/
theorem processAlert_preserves_marker (table : List (String × String))
    (smtpApiKey : Option String) (now : Int) (txOk mailOk : Nat → Bool)
    (st : Store) (a : Alert) (x : String) (h : hasMarker st x = true) :
    hasMarker (processAlert table smtpApiKey now txOk mailOk st a).1 x = true := by
  unfold processAlert
  dsimp only
  split
  · exact h
  · unfold hasMarker at h ⊢
    dsimp only
    rw [List.any_append]
    simp [h]

/-- Helper for C1: after processing an alert its marker exists. -/
theorem processAlert_marks (table : List (String × String))
    (smtpApiKey : Option String) (now : Int) (txOk mailOk : Nat → Bool)
    (st : Store) (a : Alert) :
    hasMarker (processAlert table smtpApiKey now txOk mailOk st a).1
      a.properties.id = true := by
  unfold processAlert
  dsimp only
  split
  · next hm => exact hm
  · unfold hasMarker
    dsimp only
    rw [List.any_append]
    simp

/-- Helper for C1: an already-marked alert is skipped entirely: no
store change and no contribution to `processedCount`. -/
theorem processAlert_skips_marked (table : List (String × String))
    (smtpApiKey : Option String) (now : Int) (txOk mailOk : Nat → Bool)
    (st : Store) (a : Alert) (h : hasMarker st a.properties.id = true) :
    processAlert table smtpApiKey now txOk mailOk st a = (st, 0) := by
  simp [processAlert, h]

/-- Helper for C1: markers survive a whole ingestion loop. -/
theorem runAlerts_preserve_marker (table : List (String × String))
    (smtpApiKey : Option String) (now : Int) (txOk mailOk : Nat → Bool)
    (fs : List Alert) :
    ∀ (st : Store) (x : String), hasMarker st x = true →
      hasMarker (runAlerts table smtpApiKey now txOk mailOk st fs).1 x = true := by
  induction fs with
  | nil => intro st x h; exact h
  | cons a rest ih =>
    intro st x h
    exact ih _ x (processAlert_preserves_marker table smtpApiKey now txOk mailOk st a x h)

/-- Helper for C1: after the ingestion loop, every fetched alert has a
marker. -/
theorem runAlerts_cover (table : List (String × String))
    (smtpApiKey : Option String) (now : Int) (txOk mailOk : Nat → Bool)
    (fs : List Alert) :
    ∀ (st : Store), ∀ a ∈ fs,
      hasMarker (runAlerts table smtpApiKey now txOk mailOk st fs).1
        a.properties.id = true := by
  induction fs with
  | nil => intro st a ha; cases ha
  | cons b rest ih =>
    intro st a ha
    rcases List.mem_cons.mp ha with hb | hrest
    · subst hb
      exact runAlerts_preserve_marker table smtpApiKey now txOk mailOk rest _ _
        (processAlert_marks table smtpApiKey now txOk mailOk st a)
    · exact ih _ a hrest

/-- Helper for C1: a loop over alerts that all carry markers already is
a no-op with count zero. -/
theorem runAlerts_all_marked (table : List (String × String))
    (smtpApiKey : Option String) (now : Int) (txOk mailOk : Nat → Bool)
    (fs : List Alert) :
    ∀ (st : Store), (∀ a ∈ fs, hasMarker st a.properties.id = true) →
      runAlerts table smtpApiKey now txOk mailOk st fs = (st, 0) := by
  induction fs with
  | nil => intro st _; rfl
  | cons b rest ih =>
    intro st h
    have hb := processAlert_skips_marked table smtpApiKey now txOk mailOk st b
      (h b (List.mem_cons_self b rest))
    have hrest := ih st (fun a ha => h a (List.mem_cons_of_mem b ha))
    simp [runAlerts, hb, hrest]

/-- Claim C1: ingestion creates the dedup marker for each new alert
before any dispatch for it (the marker is in the resulting store for
every processed alert, whatever the per-user oracles do), and running
ingestion a second time over the same feed content — at any later
clock and with any oracles — skips every already-marked alert: it
reports zero processed and leaves the store exactly as the first run
left it. -/
theorem ingest_idempotent_dedup (table : List (String × String))
    (smtpApiKey : Option String) (now now2 : Int)
    (txOk mailOk txOk2 mailOk2 : Nat → Bool)
    (features : Option (List Alert)) (st : Store) :
    (∀ (st0 : Store) (a : Alert), hasMarker st0 a.properties.id = true →
      processAlert table smtpApiKey now txOk mailOk st0 a = (st0, 0)) ∧
    (∀ (st0 : Store) (a : Alert),
      hasMarker (processAlert table smtpApiKey now txOk mailOk st0 a).1
        a.properties.id = true) ∧
    fetchNoaaAlertsHandler table smtpApiKey now2 txOk2 mailOk2 true features
        (fetchNoaaAlertsHandler table smtpApiKey now txOk mailOk true features st).2
      = (.ok 0,
         (fetchNoaaAlertsHandler table smtpApiKey now txOk mailOk true features st).2) := by
  refine ⟨fun st0 a h => processAlert_skips_marked table smtpApiKey now txOk mailOk st0 a h,
    fun st0 a => processAlert_marks table smtpApiKey now txOk mailOk st0 a, ?_⟩
  cases features with
  | none => rfl
  | some fs =>
    by_cases hfs : fs.isEmpty
    · simp [fetchNoaaAlertsHandler, hfs]
    · have hcover := runAlerts_cover table smtpApiKey now txOk mailOk fs st
      have hskip := runAlerts_all_marked table smtpApiKey now2 txOk2 mailOk2 fs
        (runAlerts table smtpApiKey now txOk mailOk st fs).1 hcover
      simp [fetchNoaaAlertsHandler, hfs, hskip]

/-- Witness for C1: an alert whose identifier already carries a marker
is skipped entirely — store untouched, nothing counted. -/
theorem ingest_idempotent_dedup_witness :
    processAlert [("Tangipahoa", "70401")] (some "k") 3600000 (fun _ => true)
        (fun _ => true)
        ⟨[("alert-1", ⟨0, some "Extreme", some "Tangipahoa"⟩)], [sampleUser]⟩
        ⟨sampleAlert⟩
      = (⟨[("alert-1", ⟨0, some "Extreme", some "Tangipahoa"⟩)], [sampleUser]⟩, 0) :=
  (ingest_idempotent_dedup [("Tangipahoa", "70401")] (some "k") 3600000 3600000
      (fun _ => true) (fun _ => true) (fun _ => true) (fun _ => true) none
      ⟨[], []⟩).1
    ⟨[("alert-1", ⟨0, some "Extreme", some "Tangipahoa"⟩)], [sampleUser]⟩
    ⟨sampleAlert⟩ (by decide)

/-- Counterexample to C8 as stated: at concrete failing inputs, each of
the three HTTP entry points answers with status 500, not 200 — the
claim that they respond with HTTP status 200 on failure is false. -/
theorem endpoint_failure_not_200 :
    (fetchNoaaAlertsEndpoint [] none 0 (fun _ => true) (fun _ => true) false none
        ⟨[], []⟩).1.status = 500 ∧
    (simulateDisasterEndpoint [] none 0 (fun _ => true) (fun _ => true) [] none none none
        (some "boom")).1.status = 500 ∧
    (checkUsersEndpoint 0 [] none (some "boom")).1.status = 500 ∧
    (500 : Nat) ≠ 200 :=
  ⟨rfl, rfl, rfl, by decide⟩

/-- Claim C8 (amended): every exposed HTTP entry point responds to a
failure of the underlying operation with HTTP status 500 carrying a
body of the form `{success:false, error}` — a 5xx convention, not the
200-with-error convention the claim stated. -/
theorem endpoint_failure_shape (table : List (String × String))
    (smtpApiKey : Option String) (now : Int) (txOk mailOk : Nat → Bool)
    (features : Option (List Alert)) (st : Store) (users : List User)
    (zipQ severityQ eventQ zipQ2 : Option String) (e e2 : String) :
    (fetchNoaaAlertsEndpoint table smtpApiKey now txOk mailOk false features st).1
        = { status := 500, success := false, error := some "NOAA API returned an error" } ∧
    (simulateDisasterEndpoint table smtpApiKey now txOk mailOk users zipQ severityQ eventQ
        (some e)).1
        = { status := 500, success := false, error := some e } ∧
    (checkUsersEndpoint now users zipQ2 (some e2)).1
        = { status := 500, success := false, error := some e2 } :=
  ⟨rfl, rfl, rfl⟩

/-- Claim C9: a `disaster` callable invoked without a postal code is
rejected with the client error `invalid-argument` before any side
effect — the users collection is returned unchanged and no per-user
dispatch outcome (hence no email) exists; and a `sendCatastropheEmail`
call missing any required field is answered with client error 400
before any email is sent.  (The `simulateDisaster` endpoint has no
required input: every missing input is replaced by a default.) -/
theorem validation_before_side_effects (table : List (String × String))
    (smtpApiKey : Option String) (now : Int) (txOk mailOk : Nat → Bool)
    (users : List User) (zip severity event areaDesc headline description : Option String)
    (mailOk2 : Bool) (userEmail userName catastropheType : Option String)
    (amount : Option Int)
    (hzip : jsStrFalsy zip = true)
    (hmiss : jsStrFalsy userEmail = true ∨ jsStrFalsy userName = true ∨
      jsStrFalsy catastropheType = true ∨ jsNumFalsy amount = true) :
    disasterCallable table smtpApiKey now txOk mailOk users zip severity event areaDesc
        headline description
      = (.error ⟨"invalid-argument", "ZIP code is required"⟩, users, []) ∧
    sendCatastropheEmailEndpoint smtpApiKey mailOk2 userEmail userName catastropheType
        amount
      = ({ status := 400, success := false,
           error := some "Missing required fields: userEmail, userName, catastropheType, amount" },
         false) := by
  constructor
  · simp [disasterCallable, hzip]
  · rcases hmiss with h | h | h | h <;>
      simp [sendCatastropheEmailEndpoint, h]

/-- Witness for C9 at concrete inputs: a `disaster` call with `zip`
absent is rejected unchanged, and a `sendCatastropheEmail` call with
`userEmail` absent is answered 400 with no email sent. -/
theorem validation_before_side_effects_witness :
    disasterCallable [] (some "k") 0 (fun _ => true) (fun _ => true) [sampleUser]
        none none none none none none
      = (.error ⟨"invalid-argument", "ZIP code is required"⟩, [sampleUser], []) ∧
    sendCatastropheEmailEndpoint (some "k") true none (some "Ada") (some "Flood")
        (some 100)
      = ({ status := 400, success := false,
           error := some "Missing required fields: userEmail, userName, catastropheType, amount" },
         false) :=
  validation_before_side_effects [] (some "k") 0 (fun _ => true) (fun _ => true)
    [sampleUser] none none none none none none true none (some "Ada") (some "Flood")
    (some 100) (by decide) (Or.inl (by decide))

end InstaRelief
